import Mathlib

/-!
Verification development for the feature-engineering / inference-alignment
core of a football-prediction REST backend.

Shallow embedding conventions:
* Python floats are modelled as rationals (ℚ).  All claims settled here are
  structural (branch thresholds, fill values, ordering, column selection),
  so exact rational arithmetic is the adequate model.
* A Python value that may be `None` or `NaN` is modelled with `Option` /
  an explicit `PyF.nan` constructor where the code branches on it.
* Fallible operations (true division, DataFrame column selection that can
  raise `KeyError`) return `Option`; `none` models the raised exception.
* `pandas` sorts are modelled with `List.mergeSort`; the claims proved about
  them only use sortedness, permutation and (for the Python `list.sort`,
  which is stable) stability.
-/

/-- Python `int(x)` applied to a nonnegative-or-negative rational:
truncation toward zero. -/
def pyTrunc (q : ℚ) : ℤ :=
  if 0 ≤ q then ⌊q⌋ else ⌈q⌉

/-- Python true division `a / b`; `none` models `ZeroDivisionError`. -/
def pydivQ (a b : ℚ) : Option ℚ :=
  if b = 0 then none else some (a / b)

/-- Round-half-to-even on rationals (Python `round` tie-breaking). -/
def roundHalfEven (q : ℚ) : ℤ :=
  let f : ℤ := ⌊q⌋
  let r : ℚ := q - f
  if r < 1/2 then f
  else if 1/2 < r then f + 1
  else if f % 2 = 0 then f else f + 1

/-- Python `round(x, 4)`. -/
def round4 (q : ℚ) : ℚ :=
  (roundHalfEven (q * 10000) : ℚ) / 10000

/-- A Python float value that may be NaN (`float("nan")`). -/
inductive PyF where
  | val : ℚ → PyF
  | nan : PyF
deriving DecidableEq

/-- `src/backend/app/api/bo2.py`, nested helper in `prepare_match_features`:
`def ratio(num, den): return 0.0 if den in (0, None) or pd.isna(den) else float(num) / float(den)`.
The denominator is an optional possibly-NaN float (`none` models Python `None`). -/
def ratio (num : ℚ) (den : Option PyF) : ℚ :=
  match den with
  | none => 0
  | some PyF.nan => 0
  | some (PyF.val q) => if q = 0 then 0 else num / q

/-- `preprocessing.calculate_win_rate`: `if total_matches == 0: return 0.0`
then `round(wins / total_matches, 4)`.  The `Option` result models the
possibility of a division fault in the second branch. -/
def calculate_win_rate (wins total_matches : ℤ) : Option ℚ :=
  if total_matches = 0 then some 0
  else (pydivQ (wins : ℚ) (total_matches : ℚ)).map round4

/-- `preprocessing.calculate_points`: `(wins * 3) + draws`. -/
def calculate_points (wins draws : ℤ) : ℤ :=
  (wins * 3) + draws

/-- `preprocessing.calculate_goal_difference`: `scored - conceded`. -/
def calculate_goal_difference (scored conceded : ℤ) : ℤ :=
  scored - conceded

/-- Input record for `prepare_season_ranking_features` (the `team_stats`
dict).  `clean_sheets` is `Option` because the code reads it with
`.get('clean_sheets', 0)`; the optional precomputed rates model
`.get('win_rate', ...)` / `.get('clean_sheet_rate')`. -/
structure TeamRecord where
  wins : ℤ
  draws : ℤ
  losses : ℤ
  goals_scored : ℤ
  goals_conceded : ℤ
  clean_sheets : Option ℤ := none
  win_rate : Option ℚ := none
  clean_sheet_rate : Option ℚ := none

/-- `preprocessing.prepare_season_ranking_features`, returning the
9-key feature dict as an ordered association list.  `none` would model a
division fault while computing a rate. -/
def prepare_season_ranking_features (ts : TeamRecord) : Option (List (String × ℚ)) :=
  let total_matches := ts.wins + ts.draws + ts.losses
  let clean_sheets := ts.clean_sheets.getD 0
  let win_rate? : Option ℚ :=
    match ts.win_rate with
    | some r => some r
    | none => calculate_win_rate ts.wins total_matches
  let csr? : Option ℚ :=
    match ts.clean_sheet_rate with
    | some r => some r
    | none =>
        if total_matches = 0 then some 0
        else (pydivQ (clean_sheets : ℚ) (total_matches : ℚ)).map round4
  win_rate?.bind fun win_rate =>
  csr?.map fun clean_sheet_rate =>
    [("Wins", (ts.wins : ℚ)),
     ("Draws", (ts.draws : ℚ)),
     ("Losses", (ts.losses : ℚ)),
     ("Goals_Scored", (ts.goals_scored : ℚ)),
     ("Goals_Conceded", (ts.goals_conceded : ℚ)),
     ("Goal_Difference", (calculate_goal_difference ts.goals_scored ts.goals_conceded : ℚ)),
     ("Points", (calculate_points ts.wins ts.draws : ℚ)),
     ("Win_Rate", win_rate),
     ("Clean_Sheet_Rate", clean_sheet_rate)]

/-- `preprocessing.assign_confidence_level`: thresholds on MAE only
(the `prediction` argument is accepted but unused by the code). -/
def assign_confidence_level (mae prediction : ℚ) : String :=
  if mae ≤ 1 then "high"
  else if mae ≤ 2 then "medium"
  else "low"

/-- `preprocessing.calculate_match_confidence`: thresholds on
`max(probabilities)`; `none` models the `ValueError` Python `max` raises
on an empty list. -/
def calculate_match_confidence (probabilities : List ℚ) : Option String :=
  probabilities.max?.map fun max_prob =>
    if 3/5 < max_prob then "high"
    else if 2/5 ≤ max_prob then "medium"
    else "low"

/-- C2: `ratio` returns 0.0 for a zero / None / NaN denominator, otherwise the
exact quotient; in particular `ratio x 0 = 0` and `ratio 0 y = 0` for `y ≠ 0`.
Being a total Lean function, it raises no arithmetic exception on any input. -/
theorem C2_ratio_contract (x q : ℚ) :
    ratio x (some (PyF.val 0)) = 0 ∧
    ratio x none = 0 ∧
    ratio x (some PyF.nan) = 0 ∧
    (q ≠ 0 → ratio x (some (PyF.val q)) = x / q) ∧
    (q ≠ 0 → ratio 0 (some (PyF.val q)) = 0) := by
  refine ⟨rfl, rfl, rfl, fun hq => ?_, fun hq => ?_⟩ <;> simp [ratio, hq]

/-- Witness for C2 at `x = 7`, `q = 4`. -/
theorem C2_ratio_contract_witness :
    ratio 7 (some (PyF.val 4)) = 7 / 4 ∧ ratio 0 (some (PyF.val 4)) = 0 := by
  obtain ⟨-, -, -, h4, h5⟩ := C2_ratio_contract 7 4
  exact ⟨h4 (by norm_num), h5 (by norm_num)⟩

/-- C3: with zero total matches and no precomputed rates, the season-ranking
feature builder succeeds (no division fault: the division branches are
guarded away) and yields `Win_Rate = 0.0` and `Clean_Sheet_Rate = 0.0`. -/
theorem C3_zero_total_no_div_fault (ts : TeamRecord)
    (htot : ts.wins + ts.draws + ts.losses = 0)
    (hwr : ts.win_rate = none) (hcsr : ts.clean_sheet_rate = none) :
    ∃ l, prepare_season_ranking_features ts = some l ∧
      l.lookup "Win_Rate" = some 0 ∧ l.lookup "Clean_Sheet_Rate" = some 0 := by
  refine ⟨[("Wins", (ts.wins : ℚ)),
     ("Draws", (ts.draws : ℚ)),
     ("Losses", (ts.losses : ℚ)),
     ("Goals_Scored", (ts.goals_scored : ℚ)),
     ("Goals_Conceded", (ts.goals_conceded : ℚ)),
     ("Goal_Difference", (calculate_goal_difference ts.goals_scored ts.goals_conceded : ℚ)),
     ("Points", (calculate_points ts.wins ts.draws : ℚ)),
     ("Win_Rate", 0),
     ("Clean_Sheet_Rate", 0)], ?_, ?_, ?_⟩
  · simp [prepare_season_ranking_features, hwr, hcsr, htot, calculate_win_rate]
  · simp [List.lookup]
  · simp [List.lookup]

/-- Witness for C3: the record with all-zero wins/draws/losses. -/
theorem C3_zero_total_no_div_fault_witness :
    ∃ l, prepare_season_ranking_features
        { wins := 0, draws := 0, losses := 0,
          goals_scored := 0, goals_conceded := 0 } = some l ∧
      l.lookup "Win_Rate" = some 0 ∧ l.lookup "Clean_Sheet_Rate" = some 0 :=
  C3_zero_total_no_div_fault
    { wins := 0, draws := 0, losses := 0, goals_scored := 0, goals_conceded := 0 }
    (by decide) rfl rfl

/-- C6: the confidence labels are pure threshold functions — for the ranking
objective `mae ≤ 1 → "high"`, `1 < mae ≤ 2 → "medium"`, `2 < mae → "low"`
(checked at 1.0, 1.0001, 2.0, 2.0001); for the classification objective the
label depends on the maximum class probability: `> 0.6 → "high"`,
`∈ [0.4, 0.6] → "medium"`, `< 0.4 → "low"`. -/
theorem C6_confidence_thresholds (mae p : ℚ) (probs : List ℚ) (m : ℚ) :
    (mae ≤ 1 → assign_confidence_level mae p = "high") ∧
    (1 < mae → mae ≤ 2 → assign_confidence_level mae p = "medium") ∧
    (2 < mae → assign_confidence_level mae p = "low") ∧
    assign_confidence_level 1 p = "high" ∧
    assign_confidence_level (10001/10000) p = "medium" ∧
    assign_confidence_level 2 p = "medium" ∧
    assign_confidence_level (20001/10000) p = "low" ∧
    (probs.max? = some m →
      ((3/5 < m → calculate_match_confidence probs = some "high") ∧
       (2/5 ≤ m → m ≤ 3/5 → calculate_match_confidence probs = some "medium") ∧
       (m < 2/5 → calculate_match_confidence probs = some "low"))) := by
  refine ⟨fun h => ?_, fun h1 h2 => ?_, fun h => ?_, ?_, ?_, ?_, ?_, fun hm => ⟨fun h => ?_, fun h1 h2 => ?_, fun h => ?_⟩⟩
  · simp [assign_confidence_level, h]
  · simp [assign_confidence_level, not_le.mpr h1, h2]
  · simp [assign_confidence_level, not_le.mpr h, not_le.mpr (lt_trans one_lt_two h)]
  · norm_num [assign_confidence_level]
  · norm_num [assign_confidence_level]
  · norm_num [assign_confidence_level]
  · norm_num [assign_confidence_level]
  · simp [calculate_match_confidence, hm, h]
  · simp [calculate_match_confidence, hm, not_lt.mpr h2, h1]
  · have h2 : ¬ (3/5 : ℚ) < m := not_lt.mpr (le_of_lt (lt_of_lt_of_le h (by norm_num)))
    simp [calculate_match_confidence, hm, h2, not_le.mpr h]

/-- Witness for C6 at `mae = 1/2`, probability list `[1/10, 7/10, 1/5]`. -/
theorem C6_confidence_thresholds_witness :
    assign_confidence_level (1/2) 3 = "high" ∧
    calculate_match_confidence [1/10, 7/10, 1/5] = some "high" := by
  obtain ⟨h1, -, -, -, -, -, -, h8⟩ :=
    C6_confidence_thresholds (1/2) 3 [1/10, 7/10, 1/5] (7/10)
  refine ⟨h1 (by norm_num), ?_⟩
  have hmax : ([1/10, 7/10, 1/5] : List ℚ).max? = some (7/10) := by
    norm_num [List.max?, List.foldl, max_def]
  exact (h8 hmax).1 (by norm_num)

/-- `TextPreprocessor.add_style_features`: the sensational keyword list. -/
def sensational_words : List String :=
  ["exclusive", "shocking", "bombshell", "revealed",
   "slammed", "blasts", "stunning", "massive"]

/-- `sum(1 for c in text_str if c.isupper())`.  `Char.isUpper` agrees with
Python's `str.isupper` on the ASCII texts considered here. -/
def upperCount (s : String) : ℕ := (s.data.filter Char.isUpper).length

/-- Python `str.lower()` (character-wise; exact on ASCII). -/
def pyLower (s : String) : String := ⟨s.data.map Char.toLower⟩

/-- Python `str.upper()` (character-wise; exact on ASCII). -/
def pyUpper (s : String) : String := ⟨s.data.map Char.toUpper⟩

/-- The marker emitted for a matched sensational keyword:
`f'_SENSATIONAL_{word.upper()}_'`. -/
def sensationalMarker (w : String) : String := "_SENSATIONAL_" ++ pyUpper w ++ "_"

/-- Python's substring test `needle in hay`, executable: some suffix of the
haystack starts with the needle. -/
def pySubstr (needle hay : String) : Bool :=
  hay.data.tails.any fun t => needle.data.isPrefixOf t

/-- `TextPreprocessor.add_style_features`: the `features` list built by the
method, in emission order.  The caps ratio divides by `len(text_str) + 1`
exactly as the source does. -/
def style_markers (text : String) : List String :=
  if text = "" then []
  else
    (if 2 < text.data.count '!' then ["_MULTIEXCLAIM_"] else []) ++
    (if 2 < text.data.count '?' then ["_MULTIQUESTION_"] else []) ++
    (if (5/100 : ℚ) < (upperCount text : ℚ) / ((text.length : ℚ) + 1)
      then ["_HIGHCAPS_"] else []) ++
    sensational_words.filterMap (fun w =>
      if pySubstr w (pyLower text) then some (sensationalMarker w) else none)

/-- `TextPreprocessor.add_style_features` final result: `' '.join(features)`. -/
def add_style_features (text : String) : String := " ".intercalate (style_markers text)

/-- The uppercase-character ratio as the spec sentence reads literally:
uppercase count divided by the text length (the source instead divides by
length + 1).  Kept only to compare the spec wording with the code. -/
def uppercase_ratio_specReading (s : String) : ℚ := (upperCount s : ℚ) / (s.length : ℚ)

/-- `TextPreprocessor.__init__` negation terms kept out of the stopword set. -/
def negation_terms : List String := ["not", "no", "never", "against"]

/-- `self.stop_words -= {'not', 'no', 'never', 'against'}`. -/
def remove_negations (stop_words : List String) : List String :=
  stop_words.filter (fun w => decide (w ∉ negation_terms))

/-- The token filter inside `TextPreprocessor.lemmatize`:
`w not in self.stop_words and len(w) > 2`. -/
def lemmatize_filter (stop_words tokens : List String) : List String :=
  tokens.filter (fun w => decide (w ∉ stop_words) && decide (2 < w.length))

/-- The comprehension in `TextPreprocessor.lemmatize`: lemmatize each
surviving token.  The WordNet lemmatizer is an external NLTK resource, so it
is a parameter here. -/
def lemmatize_tokens (lemmatizer : String → String) (stop_words tokens : List String) :
    List String :=
  (lemmatize_filter stop_words tokens).map lemmatizer

/-- Splitting a character list on the space character. -/
def splitOnSpace : List Char → List (List Char)
  | [] => [[]]
  | c :: rest =>
      match splitOnSpace rest with
      | [] => [[]]
      | w :: ws => if c = ' ' then [] :: w :: ws else (c :: w) :: ws

/-- NLTK `word_tokenize`, modelled as whitespace splitting; exact for the
texts used in the theorems below (space-separated alphabetic words, the shape
of stage-1 output). -/
def word_tokenize_model (text : String) : List String :=
  ((splitOnSpace text.data).map (fun l => (⟨l⟩ : String))).filter
    (fun w => decide (w ≠ ""))

/-- `TextPreprocessor.lemmatize` (nonempty-lemmatizer path): tokenize,
filter, lemmatize, rejoin. -/
def lemmatize (lemmatizer : String → String) (stop_words : List String)
    (text : String) : String :=
  if text = "" then text
  else " ".intercalate (lemmatize_tokens lemmatizer stop_words (word_tokenize_model text))

/-- Modelled from the spec: the NLTK English stopword corpus
(`stopwords.words('english')`) is external data absent from the repository;
this is a representative subset containing the four negation terms.  The
general theorems below hold for every stopword list. -/
def nltk_stopwords_model : List String :=
  ["i", "me", "my", "we", "you", "the", "a", "an", "and", "or", "of", "to",
   "in", "on", "is", "are", "was", "be", "not", "no", "never", "against"]

theorem highcaps_iff (text : String) :
    ((5/100 : ℚ) < (upperCount text : ℚ) / ((text.length : ℚ) + 1)) ↔
      text.length + 1 < 20 * upperCount text := by
  have hb : (0:ℚ) < (text.length : ℚ) + 1 := by positivity
  rw [div_lt_div_iff₀ (by norm_num) hb]
  have h2 : ((5 : ℚ) * ((text.length : ℚ) + 1) < (upperCount text : ℚ) * 100) ↔
      (5 * (text.length + 1) < upperCount text * 100) := by
    constructor <;> intro h <;> exact_mod_cast h
  rw [h2]
  omega

theorem mem_ite_list {α : Type} (a b : α) (c : Prop) [Decidable c] :
    (a ∈ if c then [b] else ([] : List α)) ↔ a = b ∧ c := by
  split <;> simp_all

theorem mem_style_markers (m text : String) :
    m ∈ style_markers text ↔
      (text ≠ "" ∧
        ((m = "_MULTIEXCLAIM_" ∧ 2 < text.data.count '!') ∨
         (m = "_MULTIQUESTION_" ∧ 2 < text.data.count '?') ∨
         (m = "_HIGHCAPS_" ∧ (5/100 : ℚ) < (upperCount text : ℚ) / ((text.length : ℚ) + 1)) ∨
         (∃ w, w ∈ sensational_words ∧ pySubstr w (pyLower text) = true ∧
            m = sensationalMarker w))) := by
  unfold style_markers
  split
  · simp_all
  · simp only [List.mem_append, mem_ite_list, List.mem_filterMap,
      Option.ite_none_right_eq_some, Option.some.injEq]
    constructor
    · rintro (((h | h) | h) | ⟨w, hw, hsub, heq⟩)
      · exact ⟨by assumption, Or.inl h⟩
      · exact ⟨by assumption, Or.inr (Or.inl h)⟩
      · exact ⟨by assumption, Or.inr (Or.inr (Or.inl h))⟩
      · exact ⟨by assumption, Or.inr (Or.inr (Or.inr ⟨w, hw, hsub, heq.symm⟩))⟩
    · rintro ⟨-, (h | h | h | ⟨w, hw, hsub, heq⟩)⟩
      · exact Or.inl (Or.inl (Or.inl h))
      · exact Or.inl (Or.inl (Or.inr h))
      · exact Or.inl (Or.inr h)
      · exact Or.inr ⟨w, hw, hsub, heq.symm⟩

theorem style_markers_eq (text : String) :
    style_markers text =
      if text = "" then []
      else
        (if 2 < text.data.count '!' then ["_MULTIEXCLAIM_"] else []) ++
        (if 2 < text.data.count '?' then ["_MULTIQUESTION_"] else []) ++
        (if text.length + 1 < 20 * upperCount text then ["_HIGHCAPS_"] else []) ++
        sensational_words.filterMap (fun w =>
          if pySubstr w (pyLower text) then some (sensationalMarker w) else none) := by
  unfold style_markers
  simp only [highcaps_iff]

theorem C7_style_feature_extraction (text : String) :
    ("_MULTIEXCLAIM_" ∈ style_markers text ↔ 2 < text.data.count '!') ∧
    ("_MULTIQUESTION_" ∈ style_markers text ↔ 2 < text.data.count '?') ∧
    ("_HIGHCAPS_" ∈ style_markers text ↔
      (5/100 : ℚ) < (upperCount text : ℚ) / ((text.length : ℚ) + 1)) ∧
    (∀ w ∈ sensational_words,
      (sensationalMarker w ∈ style_markers text ↔ pySubstr w (pyLower text) = true)) ∧
    "_MULTIEXCLAIM_" ∈ style_markers "SHOCKING!!! Club EXCLUSIVE transfer revealed!!!" ∧
    "_SENSATIONAL_SHOCKING_" ∈ style_markers "SHOCKING!!! Club EXCLUSIVE transfer revealed!!!" ∧
    "_SENSATIONAL_EXCLUSIVE_" ∈ style_markers "SHOCKING!!! Club EXCLUSIVE transfer revealed!!!" ∧
    "_SENSATIONAL_REVEALED_" ∈ style_markers "SHOCKING!!! Club EXCLUSIVE transfer revealed!!!" := by
  have hS : style_markers "SHOCKING!!! Club EXCLUSIVE transfer revealed!!!" =
      ["_MULTIEXCLAIM_", "_HIGHCAPS_", "_SENSATIONAL_EXCLUSIVE_", "_SENSATIONAL_SHOCKING_",
       "_SENSATIONAL_REVEALED_"] := by
    rw [style_markers_eq]; decide
  refine ⟨?_, ?_, ?_, ?_, ?_, ?_, ?_, ?_⟩
  · rw [mem_style_markers]
    constructor
    · rintro ⟨hne, (⟨-, h⟩ | ⟨heq, -⟩ | ⟨heq, -⟩ | ⟨w, hw, -, heq⟩)⟩
      · exact h
      · exact absurd heq (by decide)
      · exact absurd heq (by decide)
      · fin_cases hw <;> exact absurd heq (by decide)
    · intro h
      refine ⟨?_, Or.inl ⟨rfl, h⟩⟩
      intro he; rw [he] at h; exact absurd h (by decide)
  · rw [mem_style_markers]
    constructor
    · rintro ⟨hne, (⟨heq, -⟩ | ⟨-, h⟩ | ⟨heq, -⟩ | ⟨w, hw, -, heq⟩)⟩
      · exact absurd heq (by decide)
      · exact h
      · exact absurd heq (by decide)
      · fin_cases hw <;> exact absurd heq (by decide)
    · intro h
      refine ⟨?_, Or.inr (Or.inl ⟨rfl, h⟩)⟩
      intro he; rw [he] at h; exact absurd h (by decide)
  · rw [mem_style_markers]
    constructor
    · rintro ⟨hne, (⟨heq, -⟩ | ⟨heq, -⟩ | ⟨-, h⟩ | ⟨w, hw, -, heq⟩)⟩
      · exact absurd heq (by decide)
      · exact absurd heq (by decide)
      · exact h
      · fin_cases hw <;> exact absurd heq (by decide)
    · intro h
      refine ⟨?_, Or.inr (Or.inr (Or.inl ⟨rfl, h⟩))⟩
      intro he; rw [he] at h; rw [highcaps_iff] at h; exact absurd h (by decide)
  · intro w hw
    rw [mem_style_markers]
    constructor
    · rintro ⟨hne, (⟨heq, -⟩ | ⟨heq, -⟩ | ⟨heq, -⟩ | ⟨w2, hw2, hsub, heq⟩)⟩
      · fin_cases hw <;> exact absurd heq (by decide)
      · fin_cases hw <;> exact absurd heq (by decide)
      · fin_cases hw <;> exact absurd heq (by decide)
      · have hww : w = w2 := by
          fin_cases hw <;> fin_cases hw2 <;> first | rfl | exact absurd heq (by decide)
        rw [hww]; exact hsub
    · intro hsub
      have hne : text ≠ "" := by
        intro he; rw [he] at hsub
        fin_cases hw <;> exact absurd hsub (by decide)
      exact ⟨hne, Or.inr (Or.inr (Or.inr ⟨w, hw, hsub, rfl⟩))⟩
  · rw [hS]; decide
  · rw [hS]; decide
  · rw [hS]; decide
  · rw [hS]; decide

theorem C7_highcaps_counterexample :
    (5/100 : ℚ) < uppercase_ratio_specReading "Abcdefghijklmnopqrs" ∧
    "_HIGHCAPS_" ∉ style_markers "Abcdefghijklmnopqrs" := by
  constructor
  · have h1 : upperCount "Abcdefghijklmnopqrs" = 1 := by decide
    have h2 : ("Abcdefghijklmnopqrs" : String).length = 19 := by decide
    unfold uppercase_ratio_specReading
    rw [h1, h2]
    norm_num
  · have hA : style_markers "Abcdefghijklmnopqrs" = [] := by
      rw [style_markers_eq]; decide
    rw [hA]; decide

theorem C7_style_feature_extraction_witness :
    sensationalMarker "shocking" ∈
      style_markers "SHOCKING!!! Club EXCLUSIVE transfer revealed!!!" := by
  obtain ⟨-, -, -, h4, -⟩ :=
    C7_style_feature_extraction "SHOCKING!!! Club EXCLUSIVE transfer revealed!!!"
  exact (h4 "shocking" (by decide)).mpr (by decide)

/-- C8 (amended): in the stage-2 token filter, the negation terms of length
greater than 2 — "not", "never", "against" — always survive (they are removed
from the stopword set and pass the `len(w) > 2` check), and the filtered
tokens are exactly what is handed to the lemmatizer; but "no", of length 2,
is dropped by the length filter, so its occurrences never survive. -/
theorem C8_negation_survival (lemmatizer : String → String)
    (stop_words tokens : List String) :
    (lemmatize_filter (remove_negations stop_words) tokens).count "not" =
      tokens.count "not" ∧
    (lemmatize_filter (remove_negations stop_words) tokens).count "never" =
      tokens.count "never" ∧
    (lemmatize_filter (remove_negations stop_words) tokens).count "against" =
      tokens.count "against" ∧
    "no" ∉ lemmatize_filter (remove_negations stop_words) tokens ∧
    lemmatize_tokens lemmatizer (remove_negations stop_words) tokens =
      (lemmatize_filter (remove_negations stop_words) tokens).map lemmatizer := by
  have hkeep : ∀ w : String, w ∈ negation_terms → 2 < w.length →
      (fun v => decide (v ∉ remove_negations stop_words) && decide (2 < v.length)) w
        = true := by
    intro w hwneg hwlen
    simp only [Bool.and_eq_true, decide_eq_true_eq]
    refine ⟨?_, hwlen⟩
    intro hmem
    rw [remove_negations, List.mem_filter] at hmem
    exact absurd hwneg (by simpa using hmem.2)
  refine ⟨?_, ?_, ?_, ?_, rfl⟩
  · exact List.count_filter (hkeep "not" (by decide) (by decide))
  · exact List.count_filter (hkeep "never" (by decide) (by decide))
  · exact List.count_filter (hkeep "against" (by decide) (by decide))
  · intro hmem
    rw [lemmatize_filter, List.mem_filter] at hmem
    have := hmem.2
    simp only [Bool.and_eq_true, decide_eq_true_eq] at this
    exact absurd this.2 (by decide)

/-- C8 counterexample: the cleaned text "never say no again" contains the
negation token "no", yet "no" does not survive stage 2 — the `len(w) > 2`
filter drops it (for any lemmatizer; shown here with the identity). -/
theorem C8_no_token_dropped :
    "no" ∈ word_tokenize_model "never say no again" ∧
    "no" ∉ lemmatize_tokens (fun w => w) (remove_negations nltk_stopwords_model)
      (word_tokenize_model "never say no again") ∧
    lemmatize (fun w => w) (remove_negations nltk_stopwords_model)
      "never say no again" = "never say again" := by
  refine ⟨by decide, by decide, ?_⟩
  rw [lemmatize]
  decide

/-- One row of the historical match log
(`processed_premier_league_combined.csv`), with the columns read by
`bo2.get_team_historical_stats`.  `Date` is an abstract sortable stamp;
cell values are modelled NaN-free, so the `pd.notna` fallbacks in the
source never fire. -/
structure MatchRow where
  HomeTeam : String
  AwayTeam : String
  Date : ℕ
  FTR : String
  FTHG : ℚ
  FTAG : ℚ
  HS : ℚ
  AS : ℚ
  HST : ℚ
  AST : ℚ
  HF : ℚ
  AF : ℚ
  HC : ℚ
  AC : ℚ
  HY : ℚ
  AY : ℚ
  HR : ℚ
  AR : ℚ
deriving DecidableEq

/-- pandas `Series.mean` over a column selection (used on nonempty
selections only, guarded by the `.empty` check in the source). -/
def qmean (l : List ℚ) : ℚ := l.sum / l.length

/-- The aggregate dict returned by `bo2.get_team_historical_stats`. -/
structure TeamHistStats where
  shots : ℚ
  shots_on_target : ℚ
  fouls : ℚ
  corners : ℚ
  yellows : ℚ
  reds : ℚ
  wins : ℤ
  goals_scored : ℚ
  goals_conceded : ℚ
  form_wins : ℤ
  form_goals : ℤ
deriving DecidableEq

/-- The fixed default aggregate returned when a team has no historical rows. -/
def default_hist_stats : TeamHistStats :=
  { shots := 12, shots_on_target := 5, fouls := 12, corners := 5,
    yellows := 3/2, reds := 1/20, wins := 5, goals_scored := 13/10,
    goals_conceded := 6/5, form_wins := 2, form_goals := 5 }

/-- Chronological order on match rows (`sort_values('Date')`), modelled with
a stable insertion sort. -/
def dateLe : MatchRow → MatchRow → Prop := fun a b => a.Date ≤ b.Date

instance : DecidableRel dateLe := fun a b => Nat.decLe a.Date b.Date

/-- `bo2.get_team_historical_stats`: filter the match log to the team's rows
in the given venue role; defaults if empty; otherwise venue-role means,
total wins, and a form window over the 10 most recent matches
(`sort_values('Date').tail(10)`). -/
def get_team_historical_stats (team : String) (is_home : Bool)
    (df : List MatchRow) : TeamHistStats :=
  let team_matches := df.filter (fun r =>
    (if is_home then r.HomeTeam else r.AwayTeam) == team)
  if team_matches.isEmpty then default_hist_stats
  else
    let sorted := team_matches.insertionSort dateLe
    let recent := sorted.drop (sorted.length - 10)
    if is_home then
      { shots := qmean (team_matches.map MatchRow.HS),
        shots_on_target := qmean (team_matches.map MatchRow.HST),
        fouls := qmean (team_matches.map MatchRow.HF),
        corners := qmean (team_matches.map MatchRow.HC),
        yellows := qmean (team_matches.map MatchRow.HY),
        reds := qmean (team_matches.map MatchRow.HR),
        wins := ((team_matches.filter (fun r => r.FTR == "H")).length : ℤ),
        goals_scored := qmean (team_matches.map MatchRow.FTHG),
        goals_conceded := qmean (team_matches.map MatchRow.FTAG),
        form_wins := ((recent.filter (fun r => r.FTR == "H")).length : ℤ),
        form_goals := pyTrunc (recent.map MatchRow.FTHG).sum }
    else
      { shots := qmean (team_matches.map MatchRow.AS),
        shots_on_target := qmean (team_matches.map MatchRow.AST),
        fouls := qmean (team_matches.map MatchRow.AF),
        corners := qmean (team_matches.map MatchRow.AC),
        yellows := qmean (team_matches.map MatchRow.AY),
        reds := qmean (team_matches.map MatchRow.AR),
        wins := ((team_matches.filter (fun r => r.FTR == "A")).length : ℤ),
        goals_scored := qmean (team_matches.map MatchRow.FTAG),
        goals_conceded := qmean (team_matches.map MatchRow.FTHG),
        form_wins := ((recent.filter (fun r => r.FTR == "A")).length : ℤ),
        form_goals := pyTrunc (recent.map MatchRow.FTAG).sum }

/-- The `feature_values` dict built in `bo2.prepare_match_features`
(entries in source order, including the legacy duplicates). -/
def match_feature_values (home_team away_team : String)
    (team_encoding : List (String × ℤ)) (df : List MatchRow) :
    List (String × ℚ) :=
  let h := get_team_historical_stats home_team true df
  let a := get_team_historical_stats away_team false df
  [("HomeTeam_le", ((team_encoding.lookup home_team).getD 0 : ℚ)),
   ("AwayTeam_le", ((team_encoding.lookup away_team).getD 1 : ℚ)),
   ("Season_encoded", 24),
   ("HS", h.shots), ("AS", a.shots),
   ("HST", h.shots_on_target), ("AST", a.shots_on_target),
   ("HF", h.fouls), ("AF", a.fouls),
   ("HC", h.corners), ("AC", a.corners),
   ("HY", h.yellows), ("AY", a.yellows),
   ("HR", h.reds), ("AR", a.reds),
   ("home_wins_L5", (h.form_wins : ℚ)),
   ("home_goals_scored_L5", (h.form_goals : ℚ)),
   ("home_goals_conceded_L5", ((pyTrunc (h.goals_conceded * 5) : ℤ) : ℚ)),
   ("away_wins_L5", (a.form_wins : ℚ)),
   ("away_goals_scored_L5", (a.form_goals : ℚ)),
   ("away_goals_conceded_L5", ((pyTrunc (a.goals_conceded * 5) : ℤ) : ℚ)),
   ("home_shot_accuracy", ratio h.shots_on_target (some (PyF.val h.shots))),
   ("away_shot_accuracy", ratio a.shots_on_target (some (PyF.val a.shots))),
   ("home_discipline", ratio (h.yellows + h.reds) (some (PyF.val h.fouls))),
   ("away_discipline", ratio (a.yellows + a.reds) (some (PyF.val a.fouls))),
   ("HS_per_Shots", ratio h.shots_on_target (some (PyF.val h.shots))),
   ("AS_per_Shots", ratio a.shots_on_target (some (PyF.val a.shots))),
   ("HF_per_Fouls", ratio (h.yellows + h.reds) (some (PyF.val h.fouls))),
   ("AF_per_Fouls", ratio (a.yellows + a.reds) (some (PyF.val a.fouls))),
   ("Home_Wins", (h.wins : ℚ)),
   ("Away_Wins", (a.wins : ℚ)),
   ("Home_Form", ratio (h.form_wins : ℚ) (some (PyF.val 10))),
   ("Away_Form", ratio (a.form_wins : ℚ) (some (PyF.val 10))),
   ("Home_Attack_Strength", h.goals_scored),
   ("Away_Attack_Strength", a.goals_scored)]

/-- The fill loop shared by the bo2 builder:
`for fname in feature_names: if fname not in feature_values:
feature_values[fname] = 0.0` (missing names are appended in list order,
matching dict insertion order). -/
def ensure_features (fv : List (String × ℚ)) (feature_names : List String) :
    List (String × ℚ) :=
  fv ++ (feature_names.filter (fun f => (fv.lookup f).isNone)).map (fun f => (f, 0))

/-- `pd.DataFrame([fv])[feature_names]`: column selection in the requested
order; `none` models the `KeyError` raised when a requested column is
absent from the dict. -/
def select_columns (feature_names : List String) (fv : List (String × ℚ)) :
    Option (List (String × ℚ)) :=
  feature_names.mapM (fun f => (fv.lookup f).map (fun v => (f, v)))

/-- `bo2.prepare_match_features`: build the feature dict from real data,
fill missing expected features with 0.0, select columns in model order.
(`season` is accepted and unused, as in the source.) -/
def prepare_match_features (home_team away_team season : String)
    (team_encoding : List (String × ℤ)) (feature_names : List String)
    (df : List MatchRow) : Option (List (String × ℚ)) :=
  select_columns feature_names
    (ensure_features (match_feature_values home_team away_team team_encoding df)
      feature_names)

def c9row (d : ℕ) (res : String) (hg ag : ℚ) : MatchRow :=
  { HomeTeam := "X", AwayTeam := "A", Date := d, FTR := res, FTHG := hg, FTAG := ag,
    HS := 10, AS := 8, HST := 4, AST := 3, HF := 10, AF := 11, HC := 5, AC := 4,
    HY := 1, AY := 2, HR := 0, AR := 0 }

def c9df : List MatchRow := [c9row 1 "H" 2 1, c9row 2 "D" 1 1, c9row 3 "A" 0 2]


theorem lookup_eq_none_iff {β : Type} (f : String) (l : List (String × β)) :
    l.lookup f = none ↔ f ∉ l.map Prod.fst := by
  induction l with
  | nil => simp
  | cons a t ih =>
    rcases a with ⟨k, v⟩
    by_cases hfk : f = k
    · subst hfk
      simp [List.lookup_cons]
    · simp [List.lookup_cons, hfk, ih, beq_false_of_ne hfk]

theorem lookup_map_self {β : Type} (g : String → β) (f : String) (l : List String)
    (h : f ∈ l) :
    (l.map (fun x => (x, g x))).lookup f = some (g f) := by
  induction l with
  | nil => cases h
  | cons a t ih =>
    by_cases hfa : f = a
    · subst hfa
      simp [List.lookup_cons]
    · rcases List.mem_cons.mp h with h2 | h2
      · exact absurd h2 hfa
      · simp [List.lookup_cons, beq_false_of_ne hfa, ih h2]

theorem lookup_ensure_features (fv : List (String × ℚ)) (fnames : List String)
    (f : String) (h : f ∈ fnames) :
    (ensure_features fv fnames).lookup f = some ((fv.lookup f).getD 0) := by
  rw [ensure_features, List.lookup_append]
  rcases hl : fv.lookup f with _ | v
  · have hf : f ∈ fnames.filter (fun g => (fv.lookup g).isNone) :=
      List.mem_filter.mpr ⟨h, by simp [hl]⟩
    simp [Option.or, lookup_map_self (fun _ => (0:ℚ)) f _ hf]
  · simp [Option.or]

theorem select_columns_eq_some (fv : List (String × ℚ)) (fnames : List String)
    (g : String → ℚ) (h : ∀ f ∈ fnames, fv.lookup f = some (g f)) :
    select_columns fnames fv = some (fnames.map fun f => (f, g f)) := by
  induction fnames with
  | nil => rfl
  | cons a t ih =>
    rw [select_columns, List.mapM_cons]
    rw [h a (List.mem_cons_self a t)]
    have ht := ih (fun f hf => h f (List.mem_cons_of_mem a hf))
    rw [select_columns] at ht
    rw [ht]
    rfl

theorem select_columns_eq_none (fv : List (String × ℚ)) (fnames : List String)
    (f : String) (hf : f ∈ fnames) (h : fv.lookup f = none) :
    select_columns fnames fv = none := by
  induction fnames with
  | nil => cases hf
  | cons a t ih =>
    rw [select_columns, List.mapM_cons]
    rcases List.mem_cons.mp hf with h2 | h2
    · subst h2
      rw [h]
      rfl
    · rcases ha : fv.lookup a with _ | v
      · simp
      · have ht := ih h2
        rw [select_columns] at ht
        rw [ht]
        rfl

/-- Reconciliation in `prepare_match_features` always succeeds: output columns
are exactly `feature_names` in order, values from the built dict, absent
names defaulted to 0.0. -/
theorem prepare_match_features_eq (home_team away_team season : String)
    (enc : List (String × ℤ)) (fnames : List String) (df : List MatchRow) :
    prepare_match_features home_team away_team season enc fnames df =
      some (fnames.map fun f =>
        (f, ((match_feature_values home_team away_team enc df).lookup f).getD 0)) :=
  select_columns_eq_some _ _ _ (fun f hf => lookup_ensure_features _ _ f hf)

theorem lookup_mfv_home_conceded (home_team away_team : String)
    (enc : List (String × ℤ)) (df : List MatchRow) :
    (match_feature_values home_team away_team enc df).lookup "home_goals_conceded_L5" =
      some ((pyTrunc ((get_team_historical_stats home_team true df).goals_conceded * 5) : ℤ) : ℚ) := by
  simp [match_feature_values, List.lookup]

theorem lookup_mfv_away_conceded (home_team away_team : String)
    (enc : List (String × ℤ)) (df : List MatchRow) :
    (match_feature_values home_team away_team enc df).lookup "away_goals_conceded_L5" =
      some ((pyTrunc ((get_team_historical_stats away_team false df).goals_conceded * 5) : ℤ) : ℚ) := by
  simp [match_feature_values, List.lookup]

/-- C9 (amended): the last-5-conceded features `home_goals_conceded_L5` and
`away_goals_conceded_L5` equal `int(mean conceded in the venue role × 5)` —
the documented mean-times-5 approximation, but passed through Python's
`int()` truncation, so they equal the truncation of the product, not the
product itself. -/
theorem C9_conceded_L5 (df : List MatchRow) (home_team away_team season : String)
    (enc : List (String × ℤ)) (fnames : List String)
    (hh : "home_goals_conceded_L5" ∈ fnames)
    (ha : "away_goals_conceded_L5" ∈ fnames) :
    (prepare_match_features home_team away_team season enc fnames df).map
        (fun l => l.lookup "home_goals_conceded_L5") =
      some (some ((pyTrunc ((get_team_historical_stats home_team true df).goals_conceded * 5) : ℤ) : ℚ)) ∧
    (prepare_match_features home_team away_team season enc fnames df).map
        (fun l => l.lookup "away_goals_conceded_L5") =
      some (some ((pyTrunc ((get_team_historical_stats away_team false df).goals_conceded * 5) : ℤ) : ℚ)) := by
  rw [prepare_match_features_eq]
  simp only [Option.map_some']
  constructor
  · rw [lookup_map_self (fun f =>
      ((match_feature_values home_team away_team enc df).lookup f).getD 0) _ _ hh]
    rw [lookup_mfv_home_conceded]
    rfl
  · rw [lookup_map_self (fun f =>
      ((match_feature_values home_team away_team enc df).lookup f).getD 0) _ _ ha]
    rw [lookup_mfv_away_conceded]
    rfl

/-- Witness for C9 on an empty match log (default aggregates). -/
theorem C9_conceded_L5_witness :
    (prepare_match_features "Arsenal" "Chelsea" "2024-25" []
        ["home_goals_conceded_L5", "away_goals_conceded_L5"] []).map
        (fun l => l.lookup "home_goals_conceded_L5") = some (some 6) := by
  have h := (C9_conceded_L5 [] "Arsenal" "Chelsea" "2024-25" []
    ["home_goals_conceded_L5", "away_goals_conceded_L5"] (by decide) (by decide)).1
  rw [h]
  norm_num [get_team_historical_stats, default_hist_stats, pyTrunc]

/-- C9 counterexample: a team conceding 1, 1, 2 at home has mean conceded
4/3; the feature is `int(4/3 × 5) = 6`, which differs from the claimed
mean × 5 = 20/3. -/
theorem C9_counterexample_not_exact_mean :
    (prepare_match_features "X" "Y" "2024-25" [] ["home_goals_conceded_L5"] c9df).map
        (fun l => l.lookup "home_goals_conceded_L5") = some (some 6) ∧
    (get_team_historical_stats "X" true c9df).goals_conceded * 5 ≠ (6 : ℚ) := by
  have hgc : (get_team_historical_stats "X" true c9df).goals_conceded = 4/3 := by
    simp [get_team_historical_stats, c9df, c9row, qmean]
    norm_num
  constructor
  · rw [prepare_match_features_eq]
    simp only [Option.map_some']
    rw [lookup_map_self _ _ _ (by decide : "home_goals_conceded_L5" ∈ ["home_goals_conceded_L5"])]
    rw [lookup_mfv_home_conceded, hgc]
    norm_num [pyTrunc]
  · rw [hgc]; norm_num

/-- `bo4.prepare_player_features`, viewed row-wise: for each expected feature
take the numerically-coerced cell if the column exists (NaN and non-numeric
cells coerce to 0 via `fillna(0)`, modelled as `some none`), else fill 0;
output columns are exactly `feature_names` in order. -/
def prepare_player_features_row (row : List (String × Option ℚ))
    (feature_names : List String) : List (String × ℚ) :=
  feature_names.map (fun f =>
    (f, match row.lookup f with
        | some (some v) => v
        | some none => 0
        | none => 0))

/-- The 9 keys produced by `prepare_season_ranking_features`, in dict order. -/
def bo1_nine_features : List String :=
  ["Wins", "Draws", "Losses", "Goals_Scored", "Goals_Conceded",
   "Goal_Difference", "Points", "Win_Rate", "Clean_Sheet_Rate"]

/-- The missing-feature loop in `bo1.predict_season_from_data` (also in both
forecast endpoints): only `'Clean_Sheets'` is ever filled, and with the
record's clean-sheets count (`team_stat.get('clean_sheets', 0)`), not 0.0. -/
def bo1_add_missing (features : List (String × ℚ)) (actual_features : List String)
    (clean_sheets : ℤ) : List (String × ℚ) :=
  features ++ (actual_features.filter (fun f =>
      (features.lookup f).isNone && (f == "Clean_Sheets"))).map
    (fun f => (f, (clean_sheets : ℚ)))

/-- The bo1 per-team frame construction: engineer the 9 features, run the
fill loop, then `pd.DataFrame([features])[actual_features]`
(`KeyError` modelled as `none`). -/
def bo1_feature_frame (ts : TeamRecord) (actual_features : List String) :
    Option (List (String × ℚ)) :=
  (prepare_season_ranking_features ts).bind fun features =>
    select_columns actual_features
      (bo1_add_missing features actual_features (ts.clean_sheets.getD 0))

theorem calculate_win_rate_isSome (w t : ℤ) : ∃ q, calculate_win_rate w t = some q := by
  unfold calculate_win_rate pydivQ
  by_cases h : t = 0
  · exact ⟨0, by simp [h]⟩
  · have hc : ((t : ℚ)) ≠ 0 := Int.cast_ne_zero.mpr h
    exact ⟨round4 ((w : ℚ) / (t : ℚ)), by simp [h, hc]⟩

theorem prepare_season_ranking_features_keys (ts : TeamRecord) :
    ∃ l, prepare_season_ranking_features ts = some l ∧
      l.map Prod.fst = bo1_nine_features := by
  obtain ⟨w, hw⟩ : ∃ w, (match ts.win_rate with
      | some r => some r
      | none => calculate_win_rate ts.wins (ts.wins + ts.draws + ts.losses)) = some w := by
    rcases ts.win_rate with _ | r
    · exact calculate_win_rate_isSome _ _
    · exact ⟨r, rfl⟩
  obtain ⟨c, hc⟩ : ∃ c, (match ts.clean_sheet_rate with
      | some r => some r
      | none =>
          if ts.wins + ts.draws + ts.losses = 0 then some 0
          else (pydivQ ((ts.clean_sheets.getD 0 : ℤ) : ℚ)
            ((ts.wins + ts.draws + ts.losses : ℤ) : ℚ)).map round4) = some c := by
    rcases ts.clean_sheet_rate with _ | r
    · by_cases h : ts.wins + ts.draws + ts.losses = 0
      · exact ⟨0, by simp [h]⟩
      · have hcast : (((ts.wins + ts.draws + ts.losses : ℤ)) : ℚ) ≠ 0 :=
          Int.cast_ne_zero.mpr h
        refine ⟨round4 (((ts.clean_sheets.getD 0 : ℤ) : ℚ) /
          ((ts.wins + ts.draws + ts.losses : ℤ) : ℚ)), ?_⟩
        rw [if_neg h, pydivQ, if_neg hcast]
        rfl
    · exact ⟨r, rfl⟩
  refine ⟨[("Wins", (ts.wins : ℚ)), ("Draws", (ts.draws : ℚ)),
    ("Losses", (ts.losses : ℚ)), ("Goals_Scored", (ts.goals_scored : ℚ)),
    ("Goals_Conceded", (ts.goals_conceded : ℚ)),
    ("Goal_Difference", (calculate_goal_difference ts.goals_scored ts.goals_conceded : ℚ)),
    ("Points", (calculate_points ts.wins ts.draws : ℚ)),
    ("Win_Rate", w), ("Clean_Sheet_Rate", c)], ?_, rfl⟩
  simp only [prepare_season_ranking_features]
  rw [hw, hc]
  rfl

/-- C1 (amended): the match-outcome and player-recommendation pipelines fill
every expected feature absent from the builder's native output with 0.0 and
emit columns exactly in the requested order; the season-ranking pipeline
instead fills only `Clean_Sheets` — with the record's clean-sheets count, not
0.0 — and any other absent expected feature makes its column selection fail
(KeyError), rather than being filled. -/
theorem C1_feature_reconciliation :
    (∀ (home_team away_team season : String) (enc : List (String × ℤ))
        (fnames : List String) (df : List MatchRow),
      prepare_match_features home_team away_team season enc fnames df =
        some (fnames.map fun f =>
          (f, ((match_feature_values home_team away_team enc df).lookup f).getD 0))) ∧
    (∀ (row : List (String × Option ℚ)) (fnames : List String),
      (prepare_player_features_row row fnames).map Prod.fst = fnames ∧
      ∀ f ∈ fnames, row.lookup f = none →
        (prepare_player_features_row row fnames).lookup f = some 0) ∧
    (∀ (ts : TeamRecord) (actual : List String),
      (∀ f ∈ actual, f ∈ bo1_nine_features ∨ f = "Clean_Sheets") →
      "Clean_Sheets" ∈ actual →
      (bo1_feature_frame ts actual).map (fun l => l.lookup "Clean_Sheets") =
        some (some ((ts.clean_sheets.getD 0 : ℤ) : ℚ))) ∧
    (∀ (ts : TeamRecord) (actual : List String) (f : String),
      f ∈ actual → f ∉ bo1_nine_features → f ≠ "Clean_Sheets" →
      bo1_feature_frame ts actual = none) := by
  refine ⟨prepare_match_features_eq, ?_, ?_, ?_⟩
  · intro row fnames
    constructor
    · simp [prepare_player_features_row, List.map_map, Function.comp_def]
    · intro f hf hnone
      rw [prepare_player_features_row, lookup_map_self _ _ _ hf, hnone]
  · intro ts actual hall hcs
    obtain ⟨l, hl, hkeys⟩ := prepare_season_ranking_features_keys ts
    rw [bo1_feature_frame, hl]
    simp only [Option.some_bind]
    have hnoneCS : l.lookup "Clean_Sheets" = none := by
      rw [lookup_eq_none_iff, hkeys]; decide
    have hmemf : "Clean_Sheets" ∈ actual.filter (fun f =>
        (l.lookup f).isNone && (f == "Clean_Sheets")) :=
      List.mem_filter.mpr ⟨hcs, by simp [hnoneCS]⟩
    have hCSval : (bo1_add_missing l actual (ts.clean_sheets.getD 0)).lookup
        "Clean_Sheets" = some ((ts.clean_sheets.getD 0 : ℤ) : ℚ) := by
      rw [bo1_add_missing, List.lookup_append, hnoneCS,
        lookup_map_self (fun _ => ((ts.clean_sheets.getD 0 : ℤ) : ℚ)) _ _ hmemf]
      rfl
    have hlook : ∀ f ∈ actual,
        (bo1_add_missing l actual (ts.clean_sheets.getD 0)).lookup f ≠ none := by
      intro f hf
      rcases hall f hf with hnine | hceq
      · have h1 : l.lookup f ≠ none := by
          intro hno
          rw [lookup_eq_none_iff, hkeys] at hno
          exact hno hnine
        rcases hsome : l.lookup f with _ | v
        · exact absurd hsome h1
        · rw [bo1_add_missing, List.lookup_append, hsome]
          simp [Option.or]
      · rw [hceq, hCSval]
        simp
    have hsel : select_columns actual (bo1_add_missing l actual (ts.clean_sheets.getD 0)) =
        some (actual.map fun f =>
          (f, ((bo1_add_missing l actual (ts.clean_sheets.getD 0)).lookup f).getD 0)) := by
      refine select_columns_eq_some _ _ _ (fun f hf => ?_)
      rcases ho : (bo1_add_missing l actual (ts.clean_sheets.getD 0)).lookup f with _ | v
      · exact absurd ho (hlook f hf)
      · simp [ho]
    rw [hsel]
    simp only [Option.map_some']
    rw [lookup_map_self _ _ _ hcs, hCSval]
    rfl
  · intro ts actual f hf hnine hne
    obtain ⟨l, hl, hkeys⟩ := prepare_season_ranking_features_keys ts
    rw [bo1_feature_frame, hl]
    simp only [Option.some_bind]
    have hlookf : (bo1_add_missing l actual (ts.clean_sheets.getD 0)).lookup f = none := by
      rw [bo1_add_missing, List.lookup_append]
      have h1 : l.lookup f = none := by rw [lookup_eq_none_iff, hkeys]; exact hnine
      have h2 : ((actual.filter (fun g => (l.lookup g).isNone && (g == "Clean_Sheets"))).map
          (fun g => (g, ((ts.clean_sheets.getD 0 : ℤ) : ℚ)))).lookup f = none := by
        rw [lookup_eq_none_iff]
        intro hmem
        simp only [List.map_map] at hmem
        have : f ∈ actual.filter (fun g => (l.lookup g).isNone && (g == "Clean_Sheets")) := by
          simpa using hmem
        have hcond := (List.mem_filter.mp this).2
        simp only [Bool.and_eq_true, beq_iff_eq] at hcond
        exact hne hcond.2
      rw [h1, h2]
      rfl
    exact select_columns_eq_none _ _ f hf hlookf

/-- A concrete team record with 5 clean sheets and precomputed rates. -/
def c1ts : TeamRecord :=
  { wins := 10, draws := 5, losses := 3, goals_scored := 30, goals_conceded := 10,
    clean_sheets := some 5, win_rate := some 1, clean_sheet_rate := some 0 }

/-- C1 counterexample: in the season-ranking pipeline, the expected feature
`Clean_Sheets` (absent from the 9-feature native output) is filled with the
record's count 5, not with the claimed default 0.0; and the absent feature
`Foo` is not filled at all — the frame construction fails. -/
theorem C1_counterexample_clean_sheets_fill :
    (bo1_feature_frame c1ts (bo1_nine_features ++ ["Clean_Sheets"])).map
        (fun l => l.lookup "Clean_Sheets") = some (some 5) ∧
    (5 : ℚ) ≠ 0 ∧
    bo1_feature_frame c1ts (bo1_nine_features ++ ["Foo"]) = none := by
  refine ⟨by decide, by norm_num, by decide⟩

/-- Witness for C1 at a concrete record and expected-feature list. -/
theorem C1_feature_reconciliation_witness :
    (bo1_feature_frame c1ts (bo1_nine_features ++ ["Clean_Sheets"])).map
        (fun l => l.lookup "Clean_Sheets") = some (some ((5 : ℤ) : ℚ)) := by
  have h := C1_feature_reconciliation.2.2.1 c1ts (bo1_nine_features ++ ["Clean_Sheets"])
    (by decide) (by decide)
  exact h

/-- One input entry of the bo1 ranking batch: team name and the clipped raw
model output (`predicted_position` in `predictions_list`). -/
structure TeamPred where
  team : String
  predicted_position : ℚ
deriving DecidableEq

/-- One entry of the ranked bo1 response (display rounding of the raw value
to 2 decimals is omitted; ranks are assigned before rounding and are
unaffected). -/
structure RankedTeam where
  rank : ℕ
  team : String
  raw_prediction : ℚ
  confidence : String
deriving DecidableEq

/-- `bo1.predict_season_ranking` rank assembly:
`predictions_list.sort(key=lambda x: x['predicted_position'])` (Python's
stable sort, modelled by a stable insertion sort) followed by
`enumerate(..., start=1)` with the MAE-based confidence label. -/
def rank_predictions (mae : ℚ) (preds : List TeamPred) : List RankedTeam :=
  ((preds.insertionSort
      (fun a b => a.predicted_position ≤ b.predicted_position)).enumFrom 1).map
    fun rp =>
      { rank := rp.1, team := rp.2.team, raw_prediction := rp.2.predicted_position,
        confidence := assign_confidence_level mae rp.2.predicted_position }

theorem filter_orderedInsert_key {α : Type} (key : α → ℚ) (v : ℚ) (a : α)
    (s : List α) :
    ((s.orderedInsert (fun x y => key x ≤ key y) a).filter
        (fun x => decide (key x = v))) =
      if key a = v then a :: s.filter (fun x => decide (key x = v))
      else s.filter (fun x => decide (key x = v)) := by
  induction s with
  | nil =>
    by_cases hav : key a = v <;> simp [List.orderedInsert, List.filter_cons, hav]
  | cons b t ih =>
    rw [List.orderedInsert]
    split
    · by_cases hav : key a = v <;> simp [List.filter_cons, hav]
    · rename_i hnle
      by_cases hav : key a = v
      · have hbv : ¬ (key b = v) := by
          intro hb
          exact hnle (le_of_eq (hav.trans hb.symm))
        simp [List.filter_cons, hbv, ih, hav]
      · by_cases hbv : key b = v <;> simp [List.filter_cons, hbv, ih, hav]

theorem filter_insertionSort_key {α : Type} (key : α → ℚ) (v : ℚ) (l : List α) :
    ((l.insertionSort (fun x y => key x ≤ key y)).filter
        (fun x => decide (key x = v))) = l.filter (fun x => decide (key x = v)) := by
  induction l with
  | nil => rfl
  | cons a t ih =>
    rw [List.insertionSort, filter_orderedInsert_key, List.filter_cons]
    by_cases hav : key a = v <;> simp [hav, ih]

theorem pairwise_enumFrom_fst {α : Type} (n : ℕ) (l : List α) :
    List.Pairwise (fun a b => a.1 < b.1) (l.enumFrom n) := by
  have h : List.Pairwise (· < ·) ((l.enumFrom n).map Prod.fst) := by
    rw [List.enumFrom_map_fst]
    exact List.pairwise_lt_range' n l.length
  exact List.pairwise_map.mp h

theorem pairwise_enumFrom_snd {α : Type} {R : α → α → Prop} (n : ℕ) (l : List α)
    (h : List.Pairwise R l) :
    List.Pairwise (fun a b => R a.2 b.2) (l.enumFrom n) := by
  have h2 : List.Pairwise R ((l.enumFrom n).map Prod.snd) := by
    rw [List.enumFrom_map_snd]
    exact h
  exact List.pairwise_map.mp h2

/-- C4: the season-ranking orchestrator assigns ranks 1..N in ascending
order of raw prediction: ranks are exactly `[1..N]`, the ranked entries are a
permutation of the input batch, their raw predictions are sorted ascending,
for pairwise-distinct raw predictions rank order coincides with raw
prediction order, and ties keep the stable input order (entries with any
given raw value appear in input order). -/
theorem C4_rank_assignment (mae : ℚ) (preds : List TeamPred) :
    ((rank_predictions mae preds).map RankedTeam.rank = List.range' 1 preds.length) ∧
    (((rank_predictions mae preds).map (fun e => (e.team, e.raw_prediction))).Perm
      (preds.map (fun p => (p.team, p.predicted_position)))) ∧
    (((rank_predictions mae preds).map RankedTeam.raw_prediction).Sorted (· ≤ ·)) ∧
    (preds.Pairwise (fun p q => p.predicted_position ≠ q.predicted_position) →
      ∀ e1 ∈ rank_predictions mae preds, ∀ e2 ∈ rank_predictions mae preds,
        (e1.raw_prediction < e2.raw_prediction ↔ e1.rank < e2.rank)) ∧
    (∀ v : ℚ, (((rank_predictions mae preds).map
          (fun e => (e.team, e.raw_prediction))).filter (fun p => decide (p.2 = v))) =
      ((preds.map (fun p => (p.team, p.predicted_position))).filter
        (fun p => decide (p.2 = v)))) := by
  haveI hTot : IsTotal TeamPred
      (fun a b => a.predicted_position ≤ b.predicted_position) :=
    ⟨fun a b => le_total _ _⟩
  haveI hTrans : IsTrans TeamPred
      (fun a b => a.predicted_position ≤ b.predicted_position) :=
    ⟨fun a b c hab hbc => le_trans hab hbc⟩
  have hsort := List.sorted_insertionSort
    (fun a b : TeamPred => a.predicted_position ≤ b.predicted_position) preds
  have hperm := List.perm_insertionSort
    (fun a b : TeamPred => a.predicted_position ≤ b.predicted_position) preds
  have hlen : (preds.insertionSort
      (fun a b => a.predicted_position ≤ b.predicted_position)).length =
      preds.length := hperm.length_eq
  refine ⟨?_, ?_, ?_, ?_, ?_⟩
  · rw [rank_predictions, List.map_map]
    show ((preds.insertionSort
        (fun a b => a.predicted_position ≤ b.predicted_position)).enumFrom 1).map
        Prod.fst = List.range' 1 preds.length
    rw [List.enumFrom_map_fst, hlen]
  · rw [rank_predictions, List.map_map]
    show (((preds.insertionSort
        (fun a b => a.predicted_position ≤ b.predicted_position)).enumFrom 1).map
        ((fun p : TeamPred => (p.team, p.predicted_position)) ∘ Prod.snd)).Perm
        (preds.map (fun p => (p.team, p.predicted_position)))
    rw [← List.map_map, List.enumFrom_map_snd]
    exact hperm.map _
  · rw [rank_predictions, List.map_map]
    show List.Sorted (· ≤ ·) (((preds.insertionSort
        (fun a b => a.predicted_position ≤ b.predicted_position)).enumFrom 1).map
        ((fun p : TeamPred => p.predicted_position) ∘ Prod.snd))
    rw [← List.map_map, List.enumFrom_map_snd]
    exact List.pairwise_map.mpr hsort
  · intro hdist e1 he1 e2 he2
    have hne : (preds.insertionSort
        (fun a b => a.predicted_position ≤ b.predicted_position)).Pairwise
        (fun p q => p.predicted_position ≠ q.predicted_position) :=
      (hperm.pairwise_iff (fun h => h.symm)).mpr hdist
    have hlt : (preds.insertionSort
        (fun a b => a.predicted_position ≤ b.predicted_position)).Pairwise
        (fun p q => p.predicted_position < q.predicted_position) :=
      (hsort.and hne).imp (fun h => lt_of_le_of_ne h.1 h.2)
    have hP1 : (rank_predictions mae preds).Pairwise
        (fun a b => a.raw_prediction < b.raw_prediction) := by
      rw [rank_predictions]
      exact List.pairwise_map.mpr (pairwise_enumFrom_snd 1 _ hlt)
    have hP2 : (rank_predictions mae preds).Pairwise
        (fun a b => a.rank < b.rank) := by
      rw [rank_predictions]
      exact List.pairwise_map.mpr (pairwise_enumFrom_fst 1 _)
    obtain ⟨k1, hk1⟩ := List.mem_iff_get.mp he1
    obtain ⟨k2, hk2⟩ := List.mem_iff_get.mp he2
    rcases lt_trichotomy (k1 : ℕ) (k2 : ℕ) with hk | hk | hk
    · have h1 := List.pairwise_iff_get.mp hP1 k1 k2 hk
      have h2 := List.pairwise_iff_get.mp hP2 k1 k2 hk
      rw [hk1, hk2] at h1 h2
      exact iff_of_true h1 h2
    · have : e1 = e2 := by
        rw [← hk1, ← hk2]
        congr 1
        exact Fin.ext hk
      rw [this]
      exact iff_of_false (lt_irrefl _) (lt_irrefl _)
    · have h1 := List.pairwise_iff_get.mp hP1 k2 k1 hk
      have h2 := List.pairwise_iff_get.mp hP2 k2 k1 hk
      rw [hk1, hk2] at h1 h2
      exact iff_of_false (fun h => absurd h1 (not_lt.mpr (le_of_lt h)))
        (fun h => absurd h2 (not_lt.mpr (le_of_lt h)))
  · intro v
    rw [rank_predictions, List.map_map]
    show (((preds.insertionSort
        (fun a b => a.predicted_position ≤ b.predicted_position)).enumFrom 1).map
        ((fun p : TeamPred => (p.team, p.predicted_position)) ∘ Prod.snd)).filter
        (fun p => decide (p.2 = v)) = _
    rw [← List.map_map, List.enumFrom_map_snd]
    rw [List.filter_map, List.filter_map]
    show ((preds.insertionSort
        (fun x y => x.predicted_position ≤ y.predicted_position)).filter
        (fun x => decide (x.predicted_position = v))).map _ = _
    rw [filter_insertionSort_key (fun t : TeamPred => t.predicted_position) v preds]
    rfl

/-- Witness for C4 on a concrete three-team batch with distinct values. -/
theorem C4_rank_assignment_witness :
    (({ rank := 1, team := "B", raw_prediction := 1, confidence := "high" } : RankedTeam) ∈
        rank_predictions 1 [⟨"A", 3⟩, ⟨"B", 1⟩, ⟨"C", 2⟩]) ∧
    (({ rank := 3, team := "A", raw_prediction := 3, confidence := "high" } : RankedTeam) ∈
        rank_predictions 1 [⟨"A", 3⟩, ⟨"B", 1⟩, ⟨"C", 2⟩]) ∧
    ((1 : ℚ) < 3 ↔ (1 : ℕ) < 3) := by
  refine ⟨by decide, by decide, ?_⟩
  exact (C4_rank_assignment 1 [⟨"A", 3⟩, ⟨"B", 1⟩, ⟨"C", 2⟩]).2.2.2.1 (by decide)
    { rank := 1, team := "B", raw_prediction := 1, confidence := "high" } (by decide)
    { rank := 3, team := "A", raw_prediction := 3, confidence := "high" } (by decide)

/-- One candidate row in the bo4 recommendation ranking (the columns the
ranking step reads). -/
structure PlayerRow where
  player : String
  market_value : ℚ
  predicted_score : ℚ
deriving DecidableEq

/-- `players_df.sort_values(by=['predicted_score', 'Market_Value'],
ascending=[False, False])`: descending lexicographic order on
(predicted score, market value). -/
def playerOrd : PlayerRow → PlayerRow → Prop := fun a b =>
  b.predicted_score < a.predicted_score ∨
    (a.predicted_score = b.predicted_score ∧ b.market_value ≤ a.market_value)

instance : DecidableRel playerOrd := fun a b => by
  unfold playerOrd
  infer_instance

instance : IsTotal PlayerRow playerOrd := by
  constructor
  intro a b
  rcases lt_trichotomy a.predicted_score b.predicted_score with h | h | h
  · exact Or.inr (Or.inl h)
  · rcases le_total b.market_value a.market_value with hm | hm
    · exact Or.inl (Or.inr ⟨h, hm⟩)
    · exact Or.inr (Or.inr ⟨h.symm, hm⟩)
  · exact Or.inl (Or.inl h)

instance : IsTrans PlayerRow playerOrd := by
  constructor
  intro a b c hab hbc
  rcases hab with h1 | ⟨h1, hm1⟩
  · rcases hbc with h2 | ⟨h2, hm2⟩
    · exact Or.inl (lt_trans h2 h1)
    · exact Or.inl (h2 ▸ h1)
  · rcases hbc with h2 | ⟨h2, hm2⟩
    · exact Or.inl (by rw [h1]; exact h2)
    · exact Or.inr ⟨h1.trans h2, le_trans hm2 hm1⟩

/-- The bo4 candidate sort. -/
def sort_players (rows : List PlayerRow) : List PlayerRow :=
  rows.insertionSort playerOrd

/-- `top_players = players_df_sorted.head(limit)` followed by
`enumerate(top_players.iterrows(), start=1)`: 1-based ranks over the top
`limit` sorted candidates. -/
def top_recommendations (limit : ℕ) (rows : List PlayerRow) :
    List (ℕ × PlayerRow) :=
  ((sort_players rows).take limit).enumFrom 1

/-- C5: in the player-recommendation ranking (sorted by predicted score
descending, market value descending), of two ranked candidates with exactly
equal predicted scores, the one with the higher market value receives the
smaller (better) rank. -/
theorem C5_market_value_tiebreak (rows : List PlayerRow) (limit : ℕ) :
    ∀ e1 ∈ top_recommendations limit rows, ∀ e2 ∈ top_recommendations limit rows,
      e1.2.predicted_score = e2.2.predicted_score →
      e2.2.market_value < e1.2.market_value →
      e1.1 < e2.1 := by
  intro e1 he1 e2 he2 hs hmv
  have hsorted : (sort_players rows).Pairwise playerOrd :=
    List.sorted_insertionSort playerOrd rows
  have htake : ((sort_players rows).take limit).Pairwise playerOrd :=
    List.Pairwise.sublist (List.take_sublist limit _) hsorted
  have hOrd : (top_recommendations limit rows).Pairwise
      (fun a b => playerOrd a.2 b.2) := pairwise_enumFrom_snd 1 _ htake
  have hFst : (top_recommendations limit rows).Pairwise
      (fun a b => a.1 < b.1) := pairwise_enumFrom_fst 1 _
  obtain ⟨k1, hk1⟩ := List.mem_iff_get.mp he1
  obtain ⟨k2, hk2⟩ := List.mem_iff_get.mp he2
  rcases lt_trichotomy (k1 : ℕ) (k2 : ℕ) with hk | hk | hk
  · have h := List.pairwise_iff_get.mp hFst k1 k2 hk
    rw [hk1, hk2] at h
    exact h
  · exfalso
    have he : e1 = e2 := by
      rw [← hk1, ← hk2]
      congr 1
      exact Fin.ext hk
    rw [he] at hmv
    exact lt_irrefl _ hmv
  · exfalso
    have hpo := List.pairwise_iff_get.mp hOrd k2 k1 hk
    rw [hk1, hk2] at hpo
    rcases hpo with h | ⟨heq, hle⟩
    · rw [hs] at h
      exact lt_irrefl _ h
    · exact absurd hle (not_le.mpr hmv)

/-- Witness for C5: two players tied at score 5; the 100-valued one ranks 1,
the 80-valued one ranks 2. -/
theorem C5_market_value_tiebreak_witness :
    ((1, ({ player := "P1", market_value := 100, predicted_score := 5 } : PlayerRow)) ∈
        top_recommendations 10
          [{ player := "P2", market_value := 80, predicted_score := 5 },
           { player := "P1", market_value := 100, predicted_score := 5 }]) ∧
    ((2, ({ player := "P2", market_value := 80, predicted_score := 5 } : PlayerRow)) ∈
        top_recommendations 10
          [{ player := "P2", market_value := 80, predicted_score := 5 },
           { player := "P1", market_value := 100, predicted_score := 5 }]) ∧
    (1 : ℕ) < 2 := by
  refine ⟨by decide, by decide, ?_⟩
  exact C5_market_value_tiebreak
    [{ player := "P2", market_value := 80, predicted_score := 5 },
     { player := "P1", market_value := 100, predicted_score := 5 }] 10
    (1, { player := "P1", market_value := 100, predicted_score := 5 }) (by decide)
    (2, { player := "P2", market_value := 80, predicted_score := 5 }) (by decide)
    (by decide) (by decide)

/-- C10: the ranking confidence label depends only on the MAE, never on the
prediction value; consequently every entry of one ranked season response
carries the identical confidence label. -/
theorem C10_confidence_uniform (mae p1 p2 : ℚ) (preds : List TeamPred) :
    assign_confidence_level mae p1 = assign_confidence_level mae p2 ∧
    (∀ e1 ∈ rank_predictions mae preds, ∀ e2 ∈ rank_predictions mae preds,
      e1.confidence = e2.confidence) := by
  refine ⟨rfl, ?_⟩
  intro e1 he1 e2 he2
  rw [rank_predictions] at he1 he2
  obtain ⟨rp1, -, h1⟩ := List.mem_map.mp he1
  obtain ⟨rp2, -, h2⟩ := List.mem_map.mp he2
  rw [← h1, ← h2]
  rfl

/-- Witness for C10 on a concrete two-team batch with mae = 1. -/
theorem C10_confidence_uniform_witness :
    assign_confidence_level 1 5 = assign_confidence_level 1 7 ∧
    (({ rank := 1, team := "B", raw_prediction := 1, confidence := "high" } : RankedTeam) ∈
        rank_predictions 1 [⟨"A", 3⟩, ⟨"B", 1⟩] ∧
      ({ rank := 2, team := "A", raw_prediction := 3, confidence := "high" } : RankedTeam) ∈
        rank_predictions 1 [⟨"A", 3⟩, ⟨"B", 1⟩] ∧
      "high" = "high") := by
  refine ⟨(C10_confidence_uniform 1 5 7 []).1, by decide, by decide, ?_⟩
  exact (C10_confidence_uniform 1 5 7 [⟨"A", 3⟩, ⟨"B", 1⟩]).2
    { rank := 1, team := "B", raw_prediction := 1, confidence := "high" } (by decide)
    { rank := 2, team := "A", raw_prediction := 3, confidence := "high" } (by decide)
